import Mathlib

/-!
Shallow embedding of the payoff evaluation engine of OptionStratLib
(`src/model/types.rs`, `impl Payoff for OptionType` and its four helper
functions). Monetary amounts and prices are modelled as rationals (exact
arithmetic in place of `f64`/`Decimal`). The one floating-point operation
with no exact rational counterpart, `f64::powf` (used by the `Power`
variant, and by the Asian geometric mean as `powf (1/n)`, i.e. the real
nth root), is passed to the engine as an explicit function parameter `pw`.
-/

/-- Option exercise style (`financial_types::OptionStyle`, re-exported by
`src/model/types.rs`): `Call` or `Put`. -/
inductive OptionStyle where
  | Call
  | Put
  deriving DecidableEq

/-- Position side (`financial_types::Side`, re-exported by
`src/model/types.rs`): `Long` or `Short`. -/
inductive Side where
  | Long
  | Short
  deriving DecidableEq

/-- Averaging method of an Asian option (`option_type::AsianAveragingType`). -/
inductive AsianAveragingType where
  | Arithmetic
  | Geometric
  deriving DecidableEq

/-- Barrier direction and knock behaviour (`option_type::BarrierType`). -/
inductive BarrierType where
  | UpAndIn
  | DownAndIn
  | UpAndOut
  | DownAndOut
  deriving DecidableEq

/-- Digital payout shape of a Binary option (`option_type::BinaryType`). -/
inductive BinaryType where
  | CashOrNothing
  | AssetOrNothing
  | Gap
  deriving DecidableEq

/-- Strike convention of a Lookback option (`option_type::LookbackType`). -/
inductive LookbackType where
  | FixedStrike
  | FloatingStrike
  deriving DecidableEq

/-- Best-of / worst-of selector of a Rainbow option (`option_type::RainbowType`). -/
inductive RainbowType where
  | BestOf
  | WorstOf
  deriving DecidableEq

/-- Contract variants (`option_type::OptionType`). The constructors and the
fields the payoff dispatch consumes are read off the `match` in
`impl Payoff for OptionType` and the unit tests of `src/model/types.rs`;
fields the dispatch ignores (Bermuda exercise dates, Cliquet reset dates,
Rainbow asset data, Spread/Exchange second-asset data, Chooser choice date)
are carried with the shapes the spec and the tests describe. -/
inductive OptionType where
  | European
  | American
  | Bermuda (exercise_dates : List ℚ)
  | Asian (averaging_type : AsianAveragingType)
  | Barrier (barrier_type : BarrierType) (barrier_level : ℚ) (rebate : Option ℚ)
  | Binary (binary_type : BinaryType)
  | Lookback (lookback_type : LookbackType)
  | Compound (underlying_option : OptionType)
  | Chooser (choice_date : ℚ)
  | Cliquet (reset_dates : List ℚ)
  | Rainbow (num_assets : ℕ) (rainbow_type : RainbowType)
  | Spread (second_asset : ℚ)
  | Exchange (second_asset : ℚ)
  | Quanto (exchange_rate : ℚ)
  | Power (exponent : ℚ)
  deriving DecidableEq

/-- Modelled from the spec: the Scenario Snapshot (`crate::pricing::payoff::PayoffInfo`,
declared outside `src/`). Its fields — spot, strike, style, side, optional
sampled price path, optional observed path minimum and maximum — are those
of spec section 3, and match every struct literal in the unit tests of
`src/model/types.rs`. `spot` and `strike` are invariant-checked `Positive`
values in the source; here they are plain rationals, with non-negativity
stated as a hypothesis where a claim needs it. -/
structure PayoffInfo where
  spot : ℚ
  strike : ℚ
  style : OptionStyle
  side : Side
  spot_prices : Option (List ℚ)
  spot_min : Option ℚ
  spot_max : Option ℚ
  deriving DecidableEq

/-- Modelled from the spec: `PayoffInfo::spot_prices_len` (declared outside
`src/`), the length of the sampled path when one is present. Its use site
`match (&info.spot_prices, info.spot_prices_len())` in
`calculate_asian_payoff` fixes it as the mapped length of `spot_prices`. -/
def PayoffInfo.spot_prices_len (info : PayoffInfo) : Option ℕ :=
  info.spot_prices.map List.length

/-- Modelled from the spec: `standard_payoff` (`crate::pricing::payoff`,
declared outside `src/`) is the standard intrinsic-value formula of spec
section 4: `max(spot - strike, 0)` for a Call, `max(strike - spot, 0)` for
a Put. It reads only `spot`, `strike` and `style`. -/
def standard_payoff (info : PayoffInfo) : ℚ :=
  match info.style with
  | OptionStyle.Call => max (info.spot - info.strike) 0
  | OptionStyle.Put => max (info.strike - info.spot) 0

/-- Modelled from the spec: subtraction of two invariant-checked `Positive`
values (the `positive` crate is outside `src/`). Per spec section 2,
arithmetic on the non-negative value type "preserves or explicitly clamps
the invariant", so the difference is clamped at zero. -/
def posSub (a b : ℚ) : ℚ := max (a - b) 0

/-- Modelled from the spec: `Positive::new_decimal` (the `positive` crate is
outside `src/`), the fallible constructor of the invariant-checked value:
it succeeds exactly on non-negative input. -/
def posNewDecimal (x : ℚ) : Option ℚ := if 0 ≤ x then some x else none

/-- Asian payoff (`calculate_asian_payoff` in `src/model/types.rs`): average
the sampled path prices — arithmetic mean, or the product raised to the
power `1/n` (the nth root, here `pw product (1/n)`) — and apply the
standard formula with the average in place of spot; absent or empty path
yields the sentinel 0. -/
def calculate_asian_payoff (pw : ℚ → ℚ → ℚ) (averaging_type : AsianAveragingType)
    (info : PayoffInfo) : ℚ :=
  match info.spot_prices, info.spot_prices_len with
  | some spot_prices, some len =>
      if 0 < len then
        let average :=
          match averaging_type with
          | AsianAveragingType.Arithmetic =>
              spot_prices.foldl (fun acc x => acc + x) 0 / (len : ℚ)
          | AsianAveragingType.Geometric =>
              pw (spot_prices.foldl (fun acc x => acc * x) 1) (1 / (len : ℚ))
        match info.style with
        | OptionStyle.Call => max (average - info.strike) 0
        | OptionStyle.Put => max (info.strike - average) 0
      else 0
  | _, _ => 0

/-- Barrier knock condition (`barrier_condition` in `calculate_barrier_payoff`,
`src/model/types.rs`): for up-type barriers, `spot_max` (or the current
spot when absent) is at or above the level; for down-type barriers,
`spot_min` (or the current spot) is at or below the level. -/
def barrier_condition (barrier_type : BarrierType) (barrier_level : ℚ)
    (info : PayoffInfo) : Bool :=
  match barrier_type with
  | BarrierType.UpAndIn | BarrierType.UpAndOut =>
      decide (info.spot_max.getD info.spot ≥ barrier_level)
  | BarrierType.DownAndIn | BarrierType.DownAndOut =>
      decide (info.spot_min.getD info.spot ≤ barrier_level)

/-- Barrier payoff (`calculate_barrier_payoff` in `src/model/types.rs`):
"in" barriers pay the standard payoff when the condition is met and 0
otherwise; "out" barriers pay the rebate (default 0) when the condition is
met and the standard payoff otherwise. -/
def calculate_barrier_payoff (barrier_type : BarrierType) (barrier_level : ℚ)
    (rebate : Option ℚ) (info : PayoffInfo) : ℚ :=
  let std_payoff := standard_payoff info
  match barrier_type with
  | BarrierType.UpAndIn | BarrierType.DownAndIn =>
      if barrier_condition barrier_type barrier_level info then std_payoff else 0
  | BarrierType.UpAndOut | BarrierType.DownAndOut =>
      if barrier_condition barrier_type barrier_level info then rebate.getD 0 else std_payoff

/-- Binary payoff (`calculate_binary_payoff` in `src/model/types.rs`): the
in-the-money test is strict (`spot > strike` for Call, `spot < strike` for
Put); cash-or-nothing pays 1, asset-or-nothing pays the spot, gap pays the
absolute spot-strike difference; out of the money pays 0. -/
def calculate_binary_payoff (binary_type : BinaryType) (info : PayoffInfo) : ℚ :=
  let is_in_the_money : Bool :=
    match info.style with
    | OptionStyle.Call => decide (info.spot > info.strike)
    | OptionStyle.Put => decide (info.spot < info.strike)
  match binary_type with
  | BinaryType.CashOrNothing => if is_in_the_money then 1 else 0
  | BinaryType.AssetOrNothing => if is_in_the_money then info.spot else 0
  | BinaryType.Gap => if is_in_the_money then |info.spot - info.strike| else 0

/-- Lookback floating-strike payoff (`calculate_floating_strike_payoff` in
`src/model/types.rs`): Call pays `spot - spot_min` (0 substituted when the
minimum is absent), Put pays `spot_max - spot` (0 substituted when the
maximum is absent), with no clamping. -/
def calculate_floating_strike_payoff (info : PayoffInfo) : ℚ :=
  let extremum :=
    match info.style with
    | OptionStyle.Call => info.spot_min
    | OptionStyle.Put => info.spot_max
  match info.style with
  | OptionStyle.Call => info.spot - extremum.getD 0
  | OptionStyle.Put => extremum.getD 0 - info.spot

/-- The payoff engine (`impl Payoff for OptionType` in `src/model/types.rs`):
exhaustive dispatch over the contract variants. `pw` stands for `f64::powf`
(see the module docstring); every other operation is exact. The Chooser arm
mirrors the source term by term: the clamped `Positive` subtraction
`spot - strike`, a further `max` with zero, and the fallible
`Positive::new_decimal` of the clamped decimal difference `strike - spot`
with `unwrap_or(ZERO)`. -/
def payoff (pw : ℚ → ℚ → ℚ) : OptionType → PayoffInfo → ℚ
  | OptionType.European, info | OptionType.American, info => standard_payoff info
  | OptionType.Bermuda _, info => standard_payoff info
  | OptionType.Asian averaging_type, info => calculate_asian_payoff pw averaging_type info
  | OptionType.Barrier barrier_type barrier_level rebate, info =>
      calculate_barrier_payoff barrier_type barrier_level rebate info
  | OptionType.Binary binary_type, info => calculate_binary_payoff binary_type info
  | OptionType.Lookback LookbackType.FixedStrike, info => standard_payoff info
  | OptionType.Lookback LookbackType.FloatingStrike, info =>
      calculate_floating_strike_payoff info
  | OptionType.Compound underlying_option, info => payoff pw underlying_option info
  | OptionType.Chooser _, info =>
      max (max (posSub info.spot info.strike) 0)
        ((posNewDecimal (max (info.strike - info.spot) 0)).getD 0)
  | OptionType.Cliquet _, info => standard_payoff info
  | OptionType.Rainbow _ _, info | OptionType.Spread _, info
  | OptionType.Exchange _, info => standard_payoff info
  | OptionType.Quanto exchange_rate, info => standard_payoff info * exchange_rate
  | OptionType.Power exponent, info =>
      match info.style with
      | OptionStyle.Call => max (pw info.spot exponent - info.strike) 0
      | OptionStyle.Put => max (info.strike - pw info.spot exponent) 0

/-- Identity stand-in for `pw` in concrete evaluations that never reach a
`powf` call site. -/
def pwId : ℚ → ℚ → ℚ := fun a _ => a

example :
    payoff pwId OptionType.European
      ⟨110, 100, OptionStyle.Call, Side.Long, none, none, none⟩ = 10 := by
  norm_num [payoff, standard_payoff]

example :
    payoff pwId (OptionType.Asian AsianAveragingType.Arithmetic)
      ⟨90, 100, OptionStyle.Put, Side.Long, some [85, 90, 95], none, none⟩ = 10 := by
  norm_num [payoff, calculate_asian_payoff, PayoffInfo.spot_prices_len]

example :
    payoff pwId (OptionType.Barrier BarrierType.UpAndOut 110 none)
      ⟨120, 100, OptionStyle.Call, Side.Long, none, none, none⟩ = 0 := by
  norm_num [payoff, calculate_barrier_payoff, barrier_condition, standard_payoff]

example :
    payoff pwId (OptionType.Binary BinaryType.AssetOrNothing)
      ⟨90, 100, OptionStyle.Put, Side.Long, none, none, none⟩ = 90 := by
  norm_num [payoff, calculate_binary_payoff]

example :
    payoff pwId (OptionType.Lookback LookbackType.FloatingStrike)
      ⟨100, 0, OptionStyle.Put, Side.Long, none, none, none⟩ = -100 := by
  norm_num [payoff, calculate_floating_strike_payoff]

example :
    payoff pwId (OptionType.Chooser 30)
      ⟨110, 100, OptionStyle.Call, Side.Long, none, none, none⟩ = 10 := by
  norm_num [payoff, posSub, posNewDecimal]

example :
    payoff pwId (OptionType.Quanto (3 / 2))
      ⟨110, 100, OptionStyle.Call, Side.Long, none, none, none⟩ = 15 := by
  norm_num [payoff, standard_payoff]

/-- A concrete scenario with spot 90 below strike 100, used by the totality
witness: the Chooser arm's fallible constructor succeeds there too. -/
def lowSpotScenario : PayoffInfo :=
  ⟨90, 100, OptionStyle.Call, Side.Long, none, none, none⟩

/-- C1: the payoff engine is total — for every contract variant (Compound
nesting included) and every well-formed scenario (spot and strike
non-negative, any combination of optional path fields) it produces a value
and raises no error; in particular the fallible `Positive::new_decimal`
inside the Chooser arm always succeeds, because its argument is clamped at
zero before construction, even when spot is below strike. -/
theorem payoff_total (pw : ℚ → ℚ → ℚ) (o : OptionType) (info : PayoffInfo)
    (hspot : 0 ≤ info.spot) (hstrike : 0 ≤ info.strike) :
    (∃ v : ℚ, payoff pw o info = v) ∧
      posNewDecimal (max (info.strike - info.spot) 0) ≠ none := by
  refine ⟨⟨payoff pw o info, rfl⟩, ?_⟩
  rw [posNewDecimal, if_pos (le_max_right _ _)]
  exact Option.some_ne_none _

/-- C1 witness: the totality theorem evaluated on a nested Compound-Chooser
contract at a scenario with spot 90 strictly below strike 100. -/
theorem payoff_total_witness :
    (∃ v : ℚ, payoff pwId (OptionType.Compound (OptionType.Chooser 30)) lowSpotScenario = v) ∧
      posNewDecimal (max (lowSpotScenario.strike - lowSpotScenario.spot) 0) ≠ none :=
  payoff_total pwId (OptionType.Compound (OptionType.Chooser 30)) lowSpotScenario
    (by decide) (by decide)

/-- C2: the Barrier payoff. The barrier condition is met exactly when, for
up-type barriers, the observed maximum (the current spot when `spot_max` is
absent) is at or above the barrier level, and for down-type barriers, the
observed minimum (the current spot when `spot_min` is absent) is at or
below the level — ties count as met. "In" barriers pay the standard
intrinsic payoff when the condition is met and 0 otherwise; "out" barriers
pay the rebate (0 when unset) when the condition is met — regardless of the
intrinsic value — and the standard intrinsic payoff otherwise. -/
theorem barrier_payoff_spec (pw : ℚ → ℚ → ℚ) (bt : BarrierType) (level : ℚ)
    (rebate : Option ℚ) (info : PayoffInfo) :
    payoff pw (OptionType.Barrier bt level rebate) info =
      match bt with
      | BarrierType.UpAndIn =>
          if info.spot_max.getD info.spot ≥ level then standard_payoff info else 0
      | BarrierType.DownAndIn =>
          if info.spot_min.getD info.spot ≤ level then standard_payoff info else 0
      | BarrierType.UpAndOut =>
          if info.spot_max.getD info.spot ≥ level then rebate.getD 0 else standard_payoff info
      | BarrierType.DownAndOut =>
          if info.spot_min.getD info.spot ≤ level then rebate.getD 0 else standard_payoff info := by
  cases bt <;> simp [payoff, calculate_barrier_payoff, barrier_condition]

/-- C3: the Asian payoff. With a present, non-empty path of n sampled prices
the payoff is the standard formula applied with the path average in place
of spot — the arithmetic mean (sum divided by n) under arithmetic
averaging, and the product raised to the power 1/n (the real nth root,
`pw` standing for `f64::powf`) under geometric averaging. With an absent or
zero-length path the payoff is 0 regardless of style, spot and strike. -/
theorem asian_payoff_spec (pw : ℚ → ℚ → ℚ) (avgT : AsianAveragingType)
    (info : PayoffInfo) :
    payoff pw (OptionType.Asian avgT) info =
      match info.spot_prices with
      | none => 0
      | some ps =>
          if 0 < ps.length then
            (fun avg =>
              match info.style with
              | OptionStyle.Call => max (avg - info.strike) 0
              | OptionStyle.Put => max (info.strike - avg) 0)
              (match avgT with
               | AsianAveragingType.Arithmetic => ps.sum / (ps.length : ℚ)
               | AsianAveragingType.Geometric => pw ps.prod (1 / (ps.length : ℚ)))
          else 0 := by
  cases h : info.spot_prices with
  | none => simp [payoff, calculate_asian_payoff, PayoffInfo.spot_prices_len, h]
  | some ps =>
      cases avgT <;> cases hs : info.style <;>
        simp [payoff, calculate_asian_payoff, PayoffInfo.spot_prices_len, h, hs,
          List.sum_eq_foldl, List.prod_eq_foldl]

/-- C4: the Binary payoff. The in-the-money test is the strict comparison
`spot > strike` for a Call and `spot < strike` for a Put (so at
spot = strike every binary pays 0 for both styles); in the money,
cash-or-nothing pays exactly 1, asset-or-nothing pays the spot, and gap
pays the absolute value of spot - strike; out of the money all three
pay 0. -/
theorem binary_payoff_spec (pw : ℚ → ℚ → ℚ) (bt : BinaryType) (info : PayoffInfo) :
    payoff pw (OptionType.Binary bt) info =
      match info.style, bt with
      | OptionStyle.Call, BinaryType.CashOrNothing =>
          if info.strike < info.spot then 1 else 0
      | OptionStyle.Call, BinaryType.AssetOrNothing =>
          if info.strike < info.spot then info.spot else 0
      | OptionStyle.Call, BinaryType.Gap =>
          if info.strike < info.spot then |info.spot - info.strike| else 0
      | OptionStyle.Put, BinaryType.CashOrNothing =>
          if info.spot < info.strike then 1 else 0
      | OptionStyle.Put, BinaryType.AssetOrNothing =>
          if info.spot < info.strike then info.spot else 0
      | OptionStyle.Put, BinaryType.Gap =>
          if info.spot < info.strike then |info.spot - info.strike| else 0 := by
  cases hs : info.style <;> cases bt <;>
    simp [payoff, calculate_binary_payoff, hs]

/-- C5: the Lookback payoff. Floating strike: a Call pays spot minus the
observed minimum (0 substituted when `spot_min` is absent) and a Put pays
the observed maximum (0 substituted when `spot_max` is absent) minus spot,
with no clamping to zero. Fixed strike: the standard intrinsic payoff,
independent of `spot_min` and `spot_max`. -/
theorem lookback_payoff_spec (pw : ℚ → ℚ → ℚ) (info : PayoffInfo)
    (mn mx : Option ℚ) :
    (payoff pw (OptionType.Lookback LookbackType.FloatingStrike) info =
      match info.style with
      | OptionStyle.Call => info.spot - info.spot_min.getD 0
      | OptionStyle.Put => info.spot_max.getD 0 - info.spot) ∧
    payoff pw (OptionType.Lookback LookbackType.FixedStrike)
        { info with spot_min := mn, spot_max := mx } =
      standard_payoff info := by
  refine ⟨?_, rfl⟩
  cases hs : info.style <;> simp [payoff, calculate_floating_strike_payoff, hs]

/-- C6: the Chooser payoff equals the maximum of the call intrinsic value
`max(spot - strike, 0)` and the put intrinsic value `max(strike - spot, 0)`,
and is independent of the choice-date parameter and of the scenario's
option style. -/
theorem chooser_payoff_spec (pw : ℚ → ℚ → ℚ) (d : ℚ) (info : PayoffInfo) :
    (payoff pw (OptionType.Chooser d) info =
      max (max (info.spot - info.strike) 0) (max (info.strike - info.spot) 0)) ∧
    ∀ d2 : ℚ, ∀ s : OptionStyle,
      payoff pw (OptionType.Chooser d2) { info with style := s } =
        payoff pw (OptionType.Chooser d) info := by
  constructor
  · show max (max (posSub info.spot info.strike) 0)
        ((posNewDecimal (max (info.strike - info.spot) 0)).getD 0) = _
    rw [posNewDecimal, if_pos (le_max_right _ _), Option.getD_some]
    simp only [posSub]
    conv_lhs => rw [max_assoc]
    rw [max_eq_right (le_max_right _ _)]
  · intro d2 s
    rfl

/-- C7: the Power payoff equals `max(spot ^ exponent - strike, 0)` for a
Call and `max(strike - spot ^ exponent, 0)` for a Put, where `pw` stands
for the real exponentiation `f64::powf`. -/
theorem power_payoff_spec (pw : ℚ → ℚ → ℚ) (e : ℚ) (info : PayoffInfo) :
    payoff pw (OptionType.Power e) info =
      match info.style with
      | OptionStyle.Call => max (pw info.spot e - info.strike) 0
      | OptionStyle.Put => max (info.strike - pw info.spot e) 0 := by
  cases hs : info.style <;> simp [payoff, hs]

/-- C8: for every scenario and every choice of their variant-specific
parameters, the Cliquet, Rainbow, Spread and Exchange variants produce
exactly the European payoff — their parameters are ignored and they fall
through to the plain intrinsic-value formula. -/
theorem stub_variants_eq_european (pw : ℚ → ℚ → ℚ) (info : PayoffInfo)
    (reset_dates : List ℚ) (num_assets : ℕ) (rt : RainbowType)
    (spread_asset exchange_asset : ℚ) :
    payoff pw (OptionType.Cliquet reset_dates) info =
        payoff pw OptionType.European info ∧
      payoff pw (OptionType.Rainbow num_assets rt) info =
        payoff pw OptionType.European info ∧
      payoff pw (OptionType.Spread spread_asset) info =
        payoff pw OptionType.European info ∧
      payoff pw (OptionType.Exchange exchange_asset) info =
        payoff pw OptionType.European info :=
  ⟨rfl, rfl, rfl, rfl⟩

/-- C9: the payoff is independent of the scenario's side field — for every
contract variant, scenarios identical except for Long versus Short side
yield equal payoffs. -/
theorem payoff_side_independent (pw : ℚ → ℚ → ℚ) (o : OptionType)
    (info : PayoffInfo) (s1 s2 : Side) :
    payoff pw o { info with side := s1 } = payoff pw o { info with side := s2 } := by
  induction o <;> try rfl
  case Compound u ih => exact ih
  case Lookback lt => cases lt <;> rfl

/-- C10: Barrier and Lookback payoffs never read the sampled price sequence —
scenarios identical except for the `spot_prices` field (present, absent, or
with different contents) yield equal payoffs; the path extremum is taken
from `spot_min`/`spot_max`, never derived from the list. -/
theorem payoff_ignores_spot_prices (pw : ℚ → ℚ → ℚ) (bt : BarrierType)
    (level : ℚ) (rebate : Option ℚ) (lt : LookbackType) (info : PayoffInfo)
    (ps1 ps2 : Option (List ℚ)) :
    payoff pw (OptionType.Barrier bt level rebate) { info with spot_prices := ps1 } =
        payoff pw (OptionType.Barrier bt level rebate) { info with spot_prices := ps2 } ∧
      payoff pw (OptionType.Lookback lt) { info with spot_prices := ps1 } =
        payoff pw (OptionType.Lookback lt) { info with spot_prices := ps2 } := by
  refine ⟨?_, ?_⟩
  · cases bt <;> rfl
  · cases lt <;> rfl
